import Mathlib

/-!
# Coltrane (python) — verification of spec claims

A shallow embedding of the Coltrane zooplankton life-history model
(`coltrane_integrate.py`, `coltrane_population.py`, `timing_combinations.py`,
`add_strategy_to_params.py`, `prey_saturation.py`, `stage_to_D.py`,
`D_to_stage.py`, `yearday.py`) over exact rationals.

Modelling conventions:
* numpy float arrays of shape [NT] or [NT × NC] become functions `ℕ → ℚ`
  (one cohort column at a time: every step of `coltrane_integrate` is
  elementwise or column-wise over the cohort axis, so a single cohort with
  its scalar spawning date `t0` captures each column of the [NT × NC] grid);
* boolean mask arrays become functions `ℕ → Bool`;
* NaN entries are represented by `Option ℚ` (`none` = NaN) in fields that
  can be invalidated, and the final "dead" encoding (NaN / −∞ / 0) by the
  type `Flt`;
* the `np.nan_to_num` guards of the growth loop are kept where they can
  bite; where their argument is provably finite (plain ℚ) they are no-ops;
* transcendental pointwise maps (the two Q10 temperature factors, the
  allometric weight exponent `W ** (theta-1)`, the `We_theo` chain of
  lines 173–177, and `exp`) are supplied as function-valued parameters,
  since none of the verified properties depend on their numeric form;
* `np.cumsum`, `np.arange`, `np.interp`, `np.nanmax` are embedded by
  `cumsum`, `npArange`, `npInterp`, `npNanmax` below with numpy semantics;
* string-valued configuration (stage names, prey-saturation version names)
  is taken in its canonical spelling; `.upper()` / `.lower()` normalization
  is not modelled.
-/

namespace Coltrane

/-- `np.cumsum` along the time axis: `cumsum f n = f 0 + ... + f n`. -/
def cumsum (f : ℕ → ℚ) : ℕ → ℚ
  | 0 => f 0
  | n + 1 => cumsum f n + f (n + 1)

/-- Cumulative count of `true` entries of a boolean mask up to index `n`
(inclusive): `np.cumsum` of a boolean array, as used on masks. -/
def countTrue (b : ℕ → Bool) : ℕ → ℕ
  | 0 => if b 0 then 1 else 0
  | n + 1 => countTrue b n + (if b (n + 1) then 1 else 0)

/-- `np.any` over the leading slice `[0..n]` of a boolean mask; equivalently
`np.cumsum(mask) >= 1` at index `n`. -/
def anyUpTo (b : ℕ → Bool) : ℕ → Bool
  | 0 => b 0
  | n + 1 => anyUpTo b n || b (n + 1)

/-- numpy floating `%`: `t % 365 = t - 365 * floor (t / 365)`. -/
def qmod365 (x : ℚ) : ℚ := x - 365 * ⌊x / 365⌋

/-- `yearday.py`: `yday = t % 365 + 1`. -/
def yearday (t : ℚ) : ℚ := qmod365 t + 1

/-! ## Stage Mapper (`stage_to_D.py`, `D_to_stage.py`) -/

/-- Cumulative stage-boundary schedule `Bele_a` from Campbell et al. 2001,
shared by `stage_to_D.py` and `D_to_stage.py`. -/
def BeleA : List ℚ :=
  [0, 595, 983, 1564, 2951, 3710, 4426, 5267, 6233, 7370, 8798, 10964, 15047]

/-- The stage-name list of `stage_to_D.py` (C6 is special-cased). -/
def stagesList : List String :=
  ["E", "N1", "N2", "N3", "N4", "N5", "N6", "C1", "C2", "C3", "C4", "C5"]

/-- `stage_to_D.py`: midpoint of each stage interval as a fraction of total
development; `C6` maps to exactly 1; an unrecognized name fails
(Python `ValueError` from `list.index`, modelled as `none`). -/
def stage_to_D (stage : String) : Option ℚ :=
  if stage = "C6" then some 1
  else
    match stagesList.findIdx? (fun x => x == stage) with
    | some n => some (1/2 * (BeleA.getD (n + 1) 0 + BeleA.getD n 0) / 15047)
    | none => none

/-- Search for the half-open interval `[Dstage[i], Dstage[i+1])` containing
`D` over consecutive boundary pairs, returning the 1-based stage number.
This is the assignment loop of `D_to_stage.py` (its intervals are disjoint,
so the first match is the unique masked assignment). -/
def findStage (D : ℚ) : List ℚ → ℕ → Option ℕ
  | a :: b :: rest, i =>
      if a ≤ D ∧ D < b then some (i + 1) else findStage D (b :: rest) (i + 1)
  | _, _ => none

/-- `D_to_stage.py`: stage `i` (1-based) when `D ∈ [Dstage[i-1], Dstage[i])`;
`D ≥ 1` maps to stage 13; `D` below 0 (or NaN) stays unassigned (`none`). -/
def D_to_stage (D : ℚ) : Option ℕ :=
  if 1 ≤ D then some 13
  else findStage D (BeleA.map (fun b => b / 15047)) 0

/-! ## Strategy Grid (`timing_combinations.py`) -/

/-- `np.arange(start, stop, step)` for `step > 0`: the values
`start + k * step` for `0 ≤ k < ⌈(stop - start) / step⌉`. -/
def npArange (start stop step : ℚ) : List ℚ :=
  (List.range (if 0 < step then (⌈(stop - start) / step⌉).toNat else 0)).map
    (fun k : ℕ => start + (k : ℚ) * step)

/-- `timing_combinations.py` line 32: the spawning-date vector
`t0 = np.arange(t[0], t[-1] - 365 + .1 + dt_spawn, dt_spawn)`,
given the first forcing time `tstart`, the last forcing time `tend` and the
spawn-date resolution `dtspawn`. -/
def spawn_dates (tstart tend dtspawn : ℚ) : List ℚ :=
  npArange tstart (tend - 365 + 1/10 + dtspawn) dtspawn

/-! ## Strategy grids and projector (`timing_combinations.py` line 62,
`add_strategy_to_params.py`)

`np.meshgrid(tdia_exit, tdia_enter, dtegg, indexing='ij')` builds three
co-indexed grids of shape `(|exit|, |entry|, |dtegg|)`;
`add_strategy_to_params` reads them through `.flatten()` (C order, last
axis fastest). The three flattened grids are embedded directly as lists. -/

/-- Flattened (C-order) first meshgrid output: `tdia_exit` repeated over the
two trailing axes. -/
def meshFlatExit (A B C : List ℚ) : List ℚ :=
  A.flatMap (fun x => B.flatMap (fun _ => C.map (fun _ => x)))

/-- Flattened (C-order) second meshgrid output: `tdia_enter`. -/
def meshFlatEnter (A B C : List ℚ) : List ℚ :=
  A.flatMap (fun _ => B.flatMap (fun y => C.map (fun _ => y)))

/-- Flattened (C-order) third meshgrid output: `dtegg`. -/
def meshFlatDtegg (A B C : List ℚ) : List ℚ :=
  A.flatMap (fun _ => B.flatMap (fun _ => C.map (fun z => z)))

/-- The cartesian expansion of the three strategy sequences in flattening
order (last axis fastest): the list of strategy triples
`(tdia_exit, tdia_enter, dtegg)`. -/
def cartesianTriples (A B C : List ℚ) : List (ℚ × ℚ × ℚ) :=
  A.flatMap (fun x => B.flatMap (fun y => C.map (fun z => (x, y, z))))

/-- The parameter dictionary as seen by `add_strategy_to_params.py`: the
three strategy fields it overwrites, plus all remaining entries (`rest`). -/
structure ParamsStrat where
  tdia_exit : ℚ
  tdia_enter : ℚ
  dtegg : ℚ
  rest : String → ℚ

/-- `add_strategy_to_params.py`: copy `p` and overwrite the three strategy
fields with entry `ind` of each flattened strategy grid. -/
def add_strategy_to_params (p : ParamsStrat) (A B C : List ℚ) (ind : ℕ) :
    ParamsStrat :=
  { p with
    tdia_exit := (meshFlatExit A B C).getD ind 0
    tdia_enter := (meshFlatEnter A B C).getD ind 0
    dtegg := (meshFlatDtegg A B C).getD ind 0 }

/-! ## Population Driver pieces (`coltrane_population.py`) -/

/-- `np.nanmax` over a nonempty list of finite values (all entries of
`pop['F1']` are finite: `coltrane_integrate` zeroes NaN `dF1` before
summing): the maximum. An empty list is mapped to 0 (unreachable). -/
def npNanmax (l : List ℚ) : ℚ :=
  match l with
  | [] => 0
  | x :: xs => xs.foldl max x

/-- `np.interp(x, xp, fp)` on a list of `(xp, fp)` pairs with `xp`
increasing: constant extrapolation (clamping) outside `[xp[0], xp[-1]]`,
piecewise-linear interpolation inside. -/
def npInterp (x : ℚ) : List (ℚ × ℚ) → ℚ
  | [] => 0
  | [pr] => pr.2
  | pr1 :: pr2 :: rest =>
      if x < pr1.1 then pr1.2
      else if x ≤ pr2.1 then
        pr1.2 + (pr2.2 - pr1.2) * (x - pr1.1) / (pr2.1 - pr1.1)
      else npInterp x (pr2 :: rest)

/-- The inputs of the two-generation-fitness block of
`coltrane_population.py` (lines 144–151): the shared time axis
(`popts['t'][:,:,0]`, whose cohort columns are all the forcing time
series), the spawn dates (`pop['t0'][:,0]`), the per-(cohort,strategy)
single-generation fitness `pop['F1']`, and the per-(time,cohort,strategy)
fitness contributions `popts['dF1']`. -/
structure PopInputs where
  NT : ℕ
  NC : ℕ
  NS : ℕ
  t : ℕ → ℚ
  t0 : ℕ → ℚ
  F1 : ℕ → ℕ → ℚ
  dF1 : ℕ → ℕ → ℕ → ℚ

/-- Line 145: `F1expected = np.nanmax(pop['F1'], axis=1)` — best F1 over
all strategies for each spawn date. -/
def F1expected (P : PopInputs) (c : ℕ) : ℚ :=
  npNanmax ((List.range P.NS).map (fun s => P.F1 c s))

/-- The `(xp, fp)` pair list `(pop['t0'][:,0], F1expected)` fed to
`np.interp`, built from index `i` with `m` entries remaining. -/
def pairsFrom (P : PopInputs) : ℕ → ℕ → List (ℚ × ℚ)
  | _, 0 => []
  | i, m + 1 => (P.t0 i, F1expected P i) :: pairsFrom P (i + 1) m

/-- The full interpolation node list: spawn dates with their expected
next-generation fitness. -/
def interpPts (P : PopInputs) : List (ℚ × ℚ) := pairsFrom P 0 P.NC

/-- Line 147 (with line 148's NaN-to-zero fill, vacuous over ℚ):
`F1ex_ = np.interp(popts['t'][:,:,0], pop['t0'][:,0], F1expected)`,
elementwise over the [NT × NC] time tile — every cohort column of
`popts['t'][:,:,0]` is the forcing time series, so the result at
`(n, c)` depends only on `n`. -/
def F1ex (P : PopInputs) (n _c : ℕ) : ℚ := npInterp (P.t n) (interpPts P)

/-- Line 150 (after line 149's `np.repeat` over the strategy axis):
`dF2 = popts['dF1'] * F1ex_` at each (time, cohort, strategy). -/
def dF2 (P : PopInputs) (n c s : ℕ) : ℚ := P.dF1 n c s * F1ex P n c

/-- Line 151: `pop['F2'] = np.sum(dF2, axis=0)`. -/
def F2 (P : PopInputs) (c s : ℕ) : ℚ := ∑ n in Finset.range P.NT, dF2 P n c s

/-- The two-generation fitness as the SPEC describes it (for comparison
with `F2`): interpolation results at times outside the spawn-date range
are treated as zero instead of being clamped. -/
def F2specZero (P : PopInputs) (c s : ℕ) : ℚ :=
  ∑ n in Finset.range P.NT,
    P.dF1 n c s *
      (if P.t n < P.t0 0 ∨ P.t0 (P.NC - 1) < P.t n then 0
       else npInterp (P.t n) (interpPts P))

/-- Lines 104–107: the flattened-strategy indices with any cohort at
`level > 0`: `f = np.where(np.any(pop['level'] > 0, axis=0))`. -/
def successList (NC NS : ℕ) (level : ℕ → ℕ → ℚ) : List ℕ :=
  (List.range NS).filter
    (fun s => (List.range NC).any (fun c => decide (0 < level c s)))

/-- Lines 108–113: `if not np.any(f): pop['F1'] = zeros; pop['F2'] = zeros;
return pop`. `np.any` of the `np.where` tuple is true iff some listed
strategy INDEX is nonzero. `some (F1, F2)` is the early return with the
two all-zero [NC × NS] arrays; `none` means the driver continues past the
check. -/
def population_success_check (NC NS : ℕ) (level : ℕ → ℕ → ℚ) :
    Option ((ℕ → ℕ → ℚ) × (ℕ → ℕ → ℚ)) :=
  if (successList NC NS level).any (fun i => decide (i ≠ 0)) then none
  else some (fun _ _ => 0, fun _ _ => 0)

/-! ## Prey Saturation Model (`prey_saturation.py`) -/

/-- The forcing dictionary fields read by `prey_saturation.py`. `Ptot` and
the per-timestep `chl` values are optional (dictionary-presence / NaN are
significant for them); the remaining fields are taken as present (their
absence would be a Python `KeyError`, outside every claim). -/
structure PreyForcing where
  NT : ℕ
  t : ℕ → ℚ
  yday : ℕ → ℚ
  Ptot : Option (ℕ → ℚ)
  flagel : ℕ → ℚ
  diatom : ℕ → ℚ
  ice : ℕ → ℚ
  y : ℕ → ℚ
  chl : ℕ → Option ℚ
  P : ℕ → ℚ

/-- Parameters read by `prey_saturation.py`. -/
structure PreyParams where
  Ks : ℚ
  KsIA : ℚ
  iceToSat : ℚ
  tIA : ℚ
  dtIA : ℚ
  chlUnderIce : ℚ
  chlUnderPersistentCloud : ℚ

/-- The fields `prey_saturation.py` may add to the forcing dictionary;
`none` = the corresponding key was not written. -/
structure PreyResult where
  Ptot : Option (ℕ → ℚ)
  satWC : Option (ℕ → ℚ)
  satIA : Option (ℕ → ℚ)
  sat : Option (ℕ → ℚ)

/-- Python `int()` truncation toward zero of a rational. -/
def pytrunc (x : ℚ) : ℤ := x.num / (x.den : ℤ)

/-- `yr = np.ceil((t - t[0]) / 365)` at timestep `n`. -/
def yrOf (v : PreyForcing) (n : ℕ) : ℤ := ⌈(v.t n - v.t 0) / 365⌉

/-- `int(np.max(yr))`: the largest year index over the time axis (the
entry at `n = 0` is 0, so the fold over 0 is exact). -/
def maxYr (v : PreyForcing) : ℤ :=
  ((List.range v.NT).map (fun n => yrOf v n)).foldl max 0

/-- The per-year truncation loop of the `biomas_dia19`/`biomas_dia19a`
branches: for each year `n` in `1..int(max(yr))`, zero the year's ice-algae
signal once the cumulative count of its `int()`-cast entries exceeds
`dtIA / (t[1] - t[0])`, writing back only the year-`n` entries. -/
def dia19_truncate (v : PreyForcing) (dtIA : ℚ) (sIA0 : ℕ → ℚ) : ℕ → ℚ :=
  (List.range' 1 (maxYr v).toNat).foldl
    (fun sIA j =>
      fun n =>
        if yrOf v n = (j : ℤ) ∧
            dtIA / (v.t 1 - v.t 0) <
              (cumsum
                (fun k => ((pytrunc (if yrOf v k = (j : ℤ) then sIA k else 0) : ℤ) : ℚ)) n)
        then 0 else sIA n)
    sIA0

/-- `prey_saturation.py`. Each branch mirrors the source; in the
`biomas_dia19`/`biomas_dia19a` branches EVERY statement (including the
`v['sat']` assignment, which moreover sits inside the year loop) is
indented under `if 'Ptot' not in v:`, so when `Ptot` is already present
(or the year loop is empty) the input is returned with no `sat` at all. -/
def prey_saturation (version : String) (v : PreyForcing) (p : PreyParams) :
    PreyResult :=
  if version = "biomas_dia21" then
    let Pt : ℕ → ℚ :=
      match v.Ptot with
      | some f => f
      | none => fun n => v.flagel n + v.diatom n
    let satWC : ℕ → ℚ := fun n => Pt n / (p.Ks + Pt n)
    let tInit : ℕ → ℚ := fun n => max 45 (278/100 * v.y n - 117)
    let tMax : ℕ → ℚ := fun n => max 45 (208/100 * v.y n - 30)
    let IAind : ℕ → ℚ := fun n =>
      if tMax n ≤ v.yday n ∧ v.yday n ≤ 200 then
        v.ice n * (1 - (v.yday n - tMax n) / (200 - tMax n))
      else if tInit n ≤ v.yday n ∧ v.yday n ≤ tMax n then
        v.ice n * (v.yday n - tInit n) / (tMax n - tInit n)
      else 0
    let satIA : ℕ → ℚ := fun n => IAind n / (p.KsIA + IAind n)
    { Ptot := some Pt, satWC := some satWC, satIA := some satIA,
      sat := some (fun n => max (satWC n) (satIA n)) }
  else if version = "biomas_dia19a" then
    match v.Ptot with
    | some _ => { Ptot := v.Ptot, satWC := none, satIA := none, sat := none }
    | none =>
      let Pt : ℕ → ℚ := fun n => v.flagel n + v.diatom n
      let satWC : ℕ → ℚ := fun n => Pt n / (p.Ks + Pt n)
      let tIA : ℕ → ℚ := fun n => max 45 (208/100 * v.y n - 30) - p.dtIA / 3
      let satIA0 : ℕ → ℚ := fun n =>
        (if 15/100 < v.ice n then (1 : ℚ) else 0) *
          (if tIA n < v.yday n then 1 else 0) *
          (if v.yday n < 200 then 1 else 0) * p.iceToSat
      let satIAf := dia19_truncate v p.dtIA satIA0
      { Ptot := some Pt, satWC := some satWC, satIA := some satIAf,
        sat := if 1 ≤ (maxYr v).toNat then
            some (fun n => max (satWC n) (satIAf n))
          else none }
  else if version = "biomas_dia19" then
    match v.Ptot with
    | some _ => { Ptot := v.Ptot, satWC := none, satIA := none, sat := none }
    | none =>
      let Pt : ℕ → ℚ := fun n => v.flagel n + v.diatom n
      let satWC : ℕ → ℚ := fun n => Pt n / (p.Ks + Pt n)
      let satIA0 : ℕ → ℚ := fun n =>
        (if 15/100 < v.ice n then (1 : ℚ) else 0) *
          (if p.tIA < v.yday n then 1 else 0) *
          (if v.yday n < 200 then 1 else 0) * p.iceToSat
      let satIAf := dia19_truncate v p.dtIA satIA0
      { Ptot := some Pt, satWC := some satWC, satIA := some satIAf,
        sat := if 1 ≤ (maxYr v).toNat then
            some (fun n => max (satWC n) (satIAf n))
          else none }
  else if version = "satellite_dia18" then
    let chlf : ℕ → ℚ := fun n =>
      match v.chl n with
      | some c => c
      | none => if 15/100 < v.ice n then p.chlUnderIce
                else p.chlUnderPersistentCloud
    let satWC : ℕ → ℚ := fun n => chlf n / (p.Ks + chlf n)
    let satIA : ℕ → ℚ := fun n =>
      (if 15/100 < v.ice n then (1 : ℚ) else 0) *
        (if p.tIA < v.yday n then 1 else 0) *
        (if v.yday n < 270 then 1 else 0) * p.iceToSat
    { Ptot := v.Ptot, satWC := some satWC, satIA := some satIA,
      sat := some (fun n => max (satWC n) (satIA n)) }
  else
    { Ptot := v.Ptot, satWC := none, satIA := none,
      sat := some (fun n => v.P n / (p.Ks + v.P n)) }

/-! ## Cohort Integrator (`coltrane_integrate.py`)

One cohort column of the [NT × NC] state tensor, for a fixed strategy
already folded into the parameters. Every array operation of the source is
elementwise or per-column, so a column is determined by the forcing, the
parameters, the prey-saturation series (computed by `prey_saturation` at
line 107 and broadcast across cohorts at lines 108–109; passed here as an
explicit series) and the scalar spawning date `t0` of the cohort.

The per-cohort diagnostics not referenced by any claim and not feeding
back into the state (`D_winter`, `tD1`, `Wa`, `Ra`, `We`, the stage-binned
means, `capfrac`, `Na`, the timing centroids, and the forcing-derived
scalar averages) are not embedded. -/

/-- The forcing series read by `coltrane_integrate.py` (after tiling). -/
structure Forcing where
  NT : ℕ
  t : ℕ → ℚ
  T0 : ℕ → ℚ
  Td : ℕ → ℚ

/-- The parameters read by `coltrane_integrate.py`. The four function
fields stand for the pointwise transcendental maps of the source:
`q10d_pow T = (Q10d ** 0.1) ** T`, `q10g_pow T = (Q10g ** 0.1) ** T`,
`w_pow W = W ** (theta - 1)`,
`we_theo_of T = r_ea * ((1-theta) * GGE_nominal * (1-Df) *
(Q10g/Q10d)**(T/10) * I0/u0) ** ((1/(1-theta)) * exp_ea)` (lines 173–177),
`exp_fn x = e ** x`. -/
structure IParams where
  tdia_enter : ℚ
  tdia_exit : ℚ
  dtegg : ℚ
  requireActiveSpawning : Bool
  u0 : ℚ
  Df : ℚ
  Ds : ℚ
  Ddia : ℚ
  I0 : ℚ
  r_assim : ℚ
  rm : ℚ
  rb : ℚ
  maxReserveFrac : ℚ
  rstarv : ℚ
  m0 : ℚ
  q10d_pow : ℚ → ℚ
  q10g_pow : ℚ → ℚ
  w_pow : ℚ → ℚ
  we_theo_of : ℚ → ℚ
  exp_fn : ℚ → ℚ

/-- One integration run: forcing, parameters (strategy included), the
prey-saturation column, and the cohort's spawning date. -/
structure Run where
  F : Forcing
  p : IParams
  sat : ℕ → ℚ
  t0 : ℚ

/-- Line 64: `dt = t[2] - t[1]`. -/
def dt (r : Run) : ℚ := r.F.t 2 - r.F.t 1

/-- `v['yday'] = yearday(v['t'])` (line 63). -/
def yday (r : Run) (n : ℕ) : ℚ := yearday (r.F.t n)

/-- The diapause-window test `(x >= tdia_enter) | (x <= tdia_exit)`
(lines 79, 87, 92). -/
def inDiaWindow (r : Run) (x : ℚ) : Bool :=
  decide (r.p.tdia_enter ≤ x) || decide (x ≤ r.p.tdia_exit)

/-- Line 79: activity mask `a = ~((yday >= tdia_enter) | (yday <= tdia_exit))`. -/
def aB (r : Run) (n : ℕ) : Bool := !(inDiaWindow r (yday r n))

/-- Activity as a number (`np.double` of the mask). -/
def a (r : Run) (n : ℕ) : ℚ := if aB r n then 1 else 0

/-- Lines 84–93: under `requireActiveSpawning`, a cohort whose `t0` or
`t0 + dtegg` falls in the diapause window is never alive. -/
def spawnOK (r : Run) : Bool :=
  if r.p.requireActiveSpawning then
    !(inDiaWindow r (yearday r.t0)) && !(inDiaWindow r (yearday (r.t0 + r.p.dtegg)))
  else true

/-- Line 82 (with lines 84–93 folded in): `isalive = t >= t0`, restricted
by active-spawning elimination. -/
def isalive1 (r : Run) (n : ℕ) : Bool :=
  decide (r.t0 ≤ r.F.t n) && spawnOK r

/-- Line 97: `temp = a * T0 + (1 - a) * Td`. -/
def temp (r : Run) (n : ℕ) : ℚ := a r n * r.F.T0 n + (1 - a r n) * r.F.Td n

/-- Lines 99–100: development Q10 factor, zero where not alive. -/
def qd (r : Run) (n : ℕ) : ℚ :=
  if isalive1 r n then r.p.q10d_pow (temp r n) else 0

/-- Lines 102–103: growth Q10 factor, zero where not alive. -/
def qg (r : Run) (n : ℕ) : ℚ :=
  if isalive1 r n then r.p.q10g_pow (temp r n) else 0

/-- The `isalive` mask as a 0/1 factor. -/
def alive01 (r : Run) (n : ℕ) : ℚ := if isalive1 r n then 1 else 0

/-- Line 113: non-feeding development rate `isalive * u0 * qd`. -/
def dDdt_nf (r : Run) (n : ℕ) : ℚ := alive01 r n * r.p.u0 * qd r n

/-- Line 115: provisional development `cumsum(dDdt) * dt`. -/
def Dprov (r : Run) (n : ℕ) : ℚ := cumsum (dDdt_nf r) n * dt r

/-- Line 116: `isfeeding = D >= Df` on the provisional D. -/
def isfeeding0 (r : Run) (n : ℕ) : Bool := decide (r.p.Df ≤ Dprov r n)

/-- Lines 118–119: development rate with the feeding formula substituted
where the provisional D reached `Df`. -/
def dDdt (r : Run) (n : ℕ) : ℚ :=
  if isfeeding0 r n then alive01 r n * r.p.u0 * qd r n * a r n * r.sat n
  else dDdt_nf r n

/-- Lines 121–122: re-integrated development, clipped to 1. -/
def D0 (r : Run) (n : ℕ) : ℚ := min 1 (cumsum (dDdt r) n * dt r)

/-- Line 123: `isfeeding` recalculated on the clipped D. -/
def isfeeding (r : Run) (n : ℕ) : Bool := decide (r.p.Df ≤ D0 r n)

/-- Line 131: `isineggprod = t >= t0 + dtegg`. -/
def isineggprod1 (r : Run) (n : ℕ) : Bool :=
  decide (r.t0 + r.p.dtegg ≤ r.F.t n)

/-- Line 134: `toolate = np.any((D < 1) & isineggprod, axis=0)` for this
cohort column. -/
def toolate (r : Run) : Bool :=
  anyUpTo (fun n => decide (D0 r n < 1) && isineggprod1 r n) (r.F.NT - 1)

/-- Line 135: the whole D column is NaN when the cohort is `toolate`. -/
def D1 (r : Run) (n : ℕ) : Option ℚ :=
  if toolate r then none else some (D0 r n)

/-- Line 151: `isactive = isalive & ((a == 1) | ~isfeeding)`. -/
def isactive (r : Run) (n : ℕ) : Bool :=
  isalive1 r n && (decide (a r n = 1) || !(isfeeding r n))

/-- Line 152: `hasbeenactive = cumsum(isactive) >= 1`. -/
def hasbeenactive (r : Run) (n : ℕ) : Bool := anyUpTo (isactive r) n

/-- Line 153: diapause-failure event mask
`isalive & hasbeenactive & (a == 0) & (D < Ddia)` (a NaN D compares
false). -/
def isfailingtodiapause (r : Run) (n : ℕ) : Bool :=
  isalive1 r n && hasbeenactive r n && decide (a r n = 0) &&
    (match D1 r n with
     | none => false
     | some d => decide (d < r.p.Ddia))

/-- Line 154: `hasfailedtodiapause = cumsum(isfailingtodiapause) > 1`. -/
def hasfailedtodiapause (r : Run) (n : ℕ) : Bool :=
  decide (1 < countTrue (isfailingtodiapause r) n)

/-- Line 155: D is invalidated from the point the cumulative failure count
exceeds one. -/
def D2 (r : Run) (n : ℕ) : Option ℚ :=
  if hasfailedtodiapause r n then none else D1 r n

/-- Line 156: level after the diapause check — 1 where
`~np.any(hasfailedtodiapause)`, else the initial 0. -/
def levelDia (r : Run) : ℚ :=
  if anyUpTo (hasfailedtodiapause r) (r.F.NT - 1) then 0 else 1

/-- Line 158: `isalive = isalive & ~isnan(D)`. -/
def isalive2 (r : Run) (n : ℕ) : Bool := isalive1 r n && (D2 r n).isSome

/-- Line 159: `isfeeding = isfeeding & isalive`. -/
def isfeeding2 (r : Run) (n : ℕ) : Bool := isfeeding r n && isalive2 r n

/-- Line 160: `isineggprod = isineggprod & isalive`. -/
def isineggprod2 (r : Run) (n : ℕ) : Bool := isineggprod1 r n && isalive2 r n

/-- Line 167 over line 156's value: level 2 where `np.any(D == 1)`. -/
def level (r : Run) : ℚ :=
  if anyUpTo (fun n => decide (D2 r n = some 1)) (r.F.NT - 1) then 2
  else levelDia r

/-- Line 173: `T_nominal = np.mean(temp, axis=0)`. -/
def T_nominal (r : Run) : ℚ :=
  (∑ n in Finset.range r.F.NT, temp r n) / (r.F.NT : ℚ)

/-- Lines 174–177 through the `we_theo_of` map: theoretical egg weight. -/
def We_theo (r : Run) : ℚ := r.p.we_theo_of (T_nominal r)

/-- Line 186: `astar = rb + (1 - rb) * a`. -/
def astar (r : Run) (n : ℕ) : ℚ := r.p.rb + (1 - r.p.rb) * a r n

/-- The values the loop body (lines 188–225) computes at timestep `n` from
the current weight and reserves. -/
structure StepOut where
  G : ℚ
  Einc : ℚ
  E : ℚ
  Wnext : ℚ
  Rnext : ℚ

/-- Loop body of lines 188–225 for one cohort at timestep `n`, given
`W[n] = Wn` and `R[n] = Rn`. All `np.nan_to_num` guards of the source act
on values that are finite here (W, R, G and the masks never go through an
invalidated D — `fr` reads D and keeps the source's NaN-to-1 fill). -/
def step (r : Run) (n : ℕ) (Wn Rn : ℚ) : StepOut :=
  let Imax := qg r n * r.p.I0 * r.p.w_pow Wn
  let G := if isfeeding2 r n then
      a r n * r.p.r_assim * r.sat n * Imax - r.p.rm * astar r n * Imax
    else 0
  let GWdt := G * Wn * dt r
  let eInd : ℚ := if isineggprod2 r n then 1 else 0
  let dW := if 0 < GWdt ∧ isineggprod2 r n then 0 else GWdt
  let W1 := max 0 (Wn + dW)
  let fr := if GWdt < 0 then 1
    else match D2 r n with
      | none => 1
      | some d => max 0 (min 1 ((d - r.p.Ds) / (1 - r.p.Ds)))
  let R1 := Rn + fr * dW
  let excess := max 0 (R1 - r.p.maxReserveFrac * W1)
  let W2 := W1 - excess
  let R2 := R1 - excess
  let Einc := max 0 GWdt / dt r * eInd
  let Emax := if isfeeding2 r n then r.p.r_assim * Imax * eInd * Wn else 0
  let Ecap := max 0 (Emax - Einc)
  let dR := min (max 0 R2) (Ecap * dt r)
  { G := G, Einc := Einc, E := Einc + dR / dt r,
    Wnext := W2 - dR, Rnext := R2 - dR }

/-- The weight/reserves recurrence: `W[0] = We_theo`, `R[0] = 0`
(lines 182–183), advanced by `step`. -/
def WR (r : Run) : ℕ → ℚ × ℚ
  | 0 => (We_theo r, 0)
  | n + 1 =>
      let wr := WR r n
      let s := step r n wr.1 wr.2
      (s.Wnext, s.Rnext)

/-- Weight `W[n]`. -/
def W (r : Run) (n : ℕ) : ℚ := (WR r n).1

/-- Reserves `R[n]`. -/
def R (r : Run) (n : ℕ) : ℚ := (WR r n).2

/-- Growth rate `G[n]`: assigned by the loop for `n < NT - 1`, the
initialized 0 elsewhere. -/
def G (r : Run) (n : ℕ) : ℚ :=
  if n < r.F.NT - 1 then (step r n (W r n) (R r n)).G else 0

/-- Income egg production before the starvation zeroing (line 216). -/
def Einc0 (r : Run) (n : ℕ) : ℚ :=
  if n < r.F.NT - 1 then (step r n (W r n) (R r n)).Einc else 0

/-- Egg production before the starvation zeroing (line 223). -/
def E0 (r : Run) (n : ℕ) : ℚ :=
  if n < r.F.NT - 1 then (step r n (W r n) (R r n)).E else 0

/-- Line 256: `isstarving = R < -rstarv * W`. -/
def isstarving (r : Run) (n : ℕ) : Bool :=
  decide (R r n < -r.p.rstarv * W r n)

/-- Line 257: `isalive = isalive & (cumsum(isstarving) == 0)`. -/
def isalive3 (r : Run) (n : ℕ) : Bool :=
  isalive2 r n && !(anyUpTo (isstarving r) n)

/-- Line 258: `isineggprod = isineggprod & isalive`. -/
def isineggprod3 (r : Run) (n : ℕ) : Bool :=
  isineggprod2 r n && isalive3 r n

/-- Lines 260 and 329: egg production, zeroed at every not-alive cell. -/
def E (r : Run) (n : ℕ) : ℚ := if isalive3 r n then E0 r n else 0

/-- Line 261: income egg production, zeroed at not-alive cells. -/
def Einc (r : Run) (n : ℕ) : ℚ := if isalive3 r n then Einc0 r n else 0

/-- Lines 268–269: mortality rate at temperature and size, alive cells
only. -/
def m (r : Run) (n : ℕ) : ℚ :=
  if isalive3 r n then r.p.m0 * qg r n * a r n * r.p.w_pow (W r n) else 0

/-- Line 270: `lnN = cumsum(-m) * dt`. -/
def lnN (r : Run) (n : ℕ) : ℚ := cumsum (fun k => -(m r k)) n * dt r

/-- Lines 278–279: `dF1 = E * exp(lnN) * dt / We_theo` (its NaN fill is
vacuous over ℚ). -/
def dF1 (r : Run) (n : ℕ) : ℚ :=
  E r n * r.p.exp_fn (lnN r n) * dt r / We_theo r

/-- Line 280: `F1 = sum(dF1, axis=0)`. -/
def F1 (r : Run) : ℚ := ∑ n in Finset.range r.F.NT, dF1 r n

/-- A float cell of the returned state tensor after the final blanking:
an ordinary finite value, NaN, or −∞. -/
inductive Flt where
  | nan : Flt
  | ninf : Flt
  | fin : ℚ → Flt
deriving DecidableEq

/-- Line 324: returned activity, NaN at not-alive cells. -/
def a_out (r : Run) (n : ℕ) : Flt :=
  if isalive3 r n then Flt.fin (a r n) else Flt.nan

/-- Line 325: returned development, NaN at not-alive cells (and at cells
already invalidated). -/
def D_out (r : Run) (n : ℕ) : Flt :=
  if isalive3 r n then
    match D2 r n with
    | some d => Flt.fin d
    | none => Flt.nan
  else Flt.nan

/-- Line 326: returned weight, NaN at not-alive cells. -/
def W_out (r : Run) (n : ℕ) : Flt :=
  if isalive3 r n then Flt.fin (W r n) else Flt.nan

/-- Line 327: returned reserves, NaN at not-alive cells. -/
def R_out (r : Run) (n : ℕ) : Flt :=
  if isalive3 r n then Flt.fin (R r n) else Flt.nan

/-- Line 328: returned log-survivorship, −∞ at not-alive cells. -/
def lnN_out (r : Run) (n : ℕ) : Flt :=
  if isalive3 r n then Flt.fin (lnN r n) else Flt.ninf

/-! ## Concrete instances used to evaluate the embedding -/

/-- A two-timestep, one-cohort, one-strategy population input for
evaluating the two-generation-fitness block: the second timestep (day 400)
lies beyond the last spawn date (day 0). -/
def exPop : PopInputs where
  NT := 2
  NC := 1
  NS := 1
  t := fun n => 400 * (n : ℚ)
  t0 := fun c => 10 * (c : ℚ)
  F1 := fun _ _ => 5
  dF1 := fun n _ _ => if n = 1 then 1 else 0

/-- A concrete forcing for the prey-saturation variants that already
contains a combined prey field `Ptot`. -/
def exPrey : PreyForcing where
  NT := 2
  t := fun n => 365 * (n : ℚ)
  yday := fun _ => 100
  Ptot := some (fun _ => 5)
  flagel := fun _ => 1
  diatom := fun _ => 1
  ice := fun _ => 1
  y := fun _ => 70
  chl := fun _ => none
  P := fun _ => 5

/-- Concrete prey-saturation parameters. -/
def exPreyParams : PreyParams where
  Ks := 1
  KsIA := 1/5
  iceToSat := 1
  tIA := 60
  dtIA := 30
  chlUnderIce := 1
  chlUnderPersistentCloud := 1

/-- A three-timestep forcing (days 0, 1, 2) with zero temperatures. -/
def exF : Forcing where
  NT := 3
  t := fun n => (n : ℚ)
  T0 := fun _ => 0
  Td := fun _ => 0

/-- Parameters for a cohort whose egg-production date arrives while its
development is still far from 1 (`dtegg = 1`, `u0 = 1/10`), with no
diapause window (`tdia_enter = 400` is past every yearday, `tdia_exit =
-1` is before every yearday) and inert growth constants
(`I0 = r_assim = rm = m0 = 0`); the transcendental maps are the constant
1. -/
def exIP3 : IParams where
  tdia_enter := 400
  tdia_exit := -1
  dtegg := 1
  requireActiveSpawning := false
  u0 := 1/10
  Df := 2
  Ds := 1/2
  Ddia := 3/5
  I0 := 0
  r_assim := 0
  rm := 0
  rb := 0
  maxReserveFrac := 1
  rstarv := 1
  m0 := 0
  q10d_pow := fun _ => 1
  q10g_pow := fun _ => 1
  w_pow := fun _ => 1
  we_theo_of := fun _ => 1
  exp_fn := fun _ => 1

/-- A run of the integrator on `exF` with `exIP3`: cohort spawned at day
0, saturated prey. The cohort is in egg-production phase from day 1 with
`D < 1` — the logical-inconsistency case. -/
def exRunC3 : Run where
  F := exF
  p := exIP3
  sat := fun _ => 1
  t0 := 0

/-- Parameters for a cohort that enters diapause at yearday 3 with
development still below `Ddia` (`u0 = 1/100`), never feeds (`Df = 2`) and
never reaches its egg-production date (`dtegg = 1000`): exactly one
diapause-failure event occurs. -/
def exIP5 : IParams where
  tdia_enter := 3
  tdia_exit := -1
  dtegg := 1000
  requireActiveSpawning := false
  u0 := 1/100
  Df := 2
  Ds := 1/2
  Ddia := 3/5
  I0 := 0
  r_assim := 0
  rm := 0
  rb := 0
  maxReserveFrac := 1
  rstarv := 1
  m0 := 0
  q10d_pow := fun _ => 1
  q10g_pow := fun _ => 1
  w_pow := fun _ => 1
  we_theo_of := fun _ => 1
  exp_fn := fun _ => 1

/-- A run of the integrator on `exF` with `exIP5`: the cohort fails to
diapause exactly once (at day 2) and is never invalidated. -/
def exRunC5 : Run where
  F := exF
  p := exIP5
  sat := fun _ => 1
  t0 := 0

/-! ## Basic lemmas -/

theorem countTrue_mono (b : ℕ → Bool) : Monotone (countTrue b) := by
  apply monotone_nat_of_le_succ
  intro n
  simp only [countTrue]
  split <;> omega

theorem anyUpTo_mono (b : ℕ → Bool) {i j : ℕ} (h : i ≤ j)
    (hm : anyUpTo b i = true) : anyUpTo b j = true := by
  induction j with
  | zero => simpa [Nat.le_zero.mp h] using hm
  | succ k ih =>
      rcases Nat.lt_or_ge i (k + 1) with hlt | hge
      · have : anyUpTo b k = true := ih (Nat.lt_succ_iff.mp hlt)
        simp [anyUpTo, this]
      · have : i = k + 1 := le_antisymm h hge
        simpa [this] using hm

theorem anyUpTo_eq_false_iff (b : ℕ → Bool) (n : ℕ) :
    anyUpTo b n = false ↔ ∀ k ≤ n, b k = false := by
  induction n with
  | zero =>
      constructor
      · intro h k hk
        simpa [Nat.le_zero.mp hk] using h
      · intro h
        simpa [anyUpTo] using h 0 (le_refl 0)
  | succ j ih =>
      constructor
      · intro h k hk
        simp only [anyUpTo, Bool.or_eq_false_iff] at h
        rcases Nat.lt_succ_iff_lt_or_eq.mp (Nat.lt_succ_of_le hk) with hlt | heq
        · exact (ih.mp h.1) k (Nat.lt_succ_iff.mp hlt)
        · simpa [heq] using h.2
      · intro h
        simp only [anyUpTo, Bool.or_eq_false_iff]
        exact ⟨ih.mpr fun k hk => h k (le_trans hk (Nat.le_succ j)),
               h (j + 1) (le_refl _)⟩

theorem anyUpTo_eq_true_iff (b : ℕ → Bool) (n : ℕ) :
    anyUpTo b n = true ↔ ∃ k ≤ n, b k = true := by
  rw [← not_iff_not]
  push_neg
  simp only [Bool.not_eq_true, anyUpTo_eq_false_iff]

/-! ## C9 — Stage Mapper round trip -/

/-- C9: for every one of the 13 stage names accepted by `stage_to_D`,
applying `D_to_stage` to the returned development value yields that
stage's ordinal number (1 through 13). -/
theorem c9_stage_roundtrip :
    (stage_to_D "E").bind D_to_stage = some 1 ∧
    (stage_to_D "N1").bind D_to_stage = some 2 ∧
    (stage_to_D "N2").bind D_to_stage = some 3 ∧
    (stage_to_D "N3").bind D_to_stage = some 4 ∧
    (stage_to_D "N4").bind D_to_stage = some 5 ∧
    (stage_to_D "N5").bind D_to_stage = some 6 ∧
    (stage_to_D "N6").bind D_to_stage = some 7 ∧
    (stage_to_D "C1").bind D_to_stage = some 8 ∧
    (stage_to_D "C2").bind D_to_stage = some 9 ∧
    (stage_to_D "C3").bind D_to_stage = some 10 ∧
    (stage_to_D "C4").bind D_to_stage = some 11 ∧
    (stage_to_D "C5").bind D_to_stage = some 12 ∧
    (stage_to_D "C6").bind D_to_stage = some 13 := by
  refine ⟨?_, ?_, ?_, ?_, ?_, ?_, ?_, ?_, ?_, ?_, ?_, ?_, ?_⟩
  · have h2 : stagesList.findIdx? (fun x => x == "E") = some 0 := by decide
    simp only [stage_to_D, if_neg (by decide : ¬("E" : String) = "C6"), h2]
    norm_num [D_to_stage, findStage, BeleA]
  · have h2 : stagesList.findIdx? (fun x => x == "N1") = some 1 := by decide
    simp only [stage_to_D, if_neg (by decide : ¬("N1" : String) = "C6"), h2]
    norm_num [D_to_stage, findStage, BeleA]
  · have h2 : stagesList.findIdx? (fun x => x == "N2") = some 2 := by decide
    simp only [stage_to_D, if_neg (by decide : ¬("N2" : String) = "C6"), h2]
    norm_num [D_to_stage, findStage, BeleA]
  · have h2 : stagesList.findIdx? (fun x => x == "N3") = some 3 := by decide
    simp only [stage_to_D, if_neg (by decide : ¬("N3" : String) = "C6"), h2]
    norm_num [D_to_stage, findStage, BeleA]
  · have h2 : stagesList.findIdx? (fun x => x == "N4") = some 4 := by decide
    simp only [stage_to_D, if_neg (by decide : ¬("N4" : String) = "C6"), h2]
    norm_num [D_to_stage, findStage, BeleA]
  · have h2 : stagesList.findIdx? (fun x => x == "N5") = some 5 := by decide
    simp only [stage_to_D, if_neg (by decide : ¬("N5" : String) = "C6"), h2]
    norm_num [D_to_stage, findStage, BeleA]
  · have h2 : stagesList.findIdx? (fun x => x == "N6") = some 6 := by decide
    simp only [stage_to_D, if_neg (by decide : ¬("N6" : String) = "C6"), h2]
    norm_num [D_to_stage, findStage, BeleA]
  · have h2 : stagesList.findIdx? (fun x => x == "C1") = some 7 := by decide
    simp only [stage_to_D, if_neg (by decide : ¬("C1" : String) = "C6"), h2]
    norm_num [D_to_stage, findStage, BeleA]
  · have h2 : stagesList.findIdx? (fun x => x == "C2") = some 8 := by decide
    simp only [stage_to_D, if_neg (by decide : ¬("C2" : String) = "C6"), h2]
    norm_num [D_to_stage, findStage, BeleA]
  · have h2 : stagesList.findIdx? (fun x => x == "C3") = some 9 := by decide
    simp only [stage_to_D, if_neg (by decide : ¬("C3" : String) = "C6"), h2]
    norm_num [D_to_stage, findStage, BeleA]
  · have h2 : stagesList.findIdx? (fun x => x == "C4") = some 10 := by decide
    simp only [stage_to_D, if_neg (by decide : ¬("C4" : String) = "C6"), h2]
    norm_num [D_to_stage, findStage, BeleA]
  · have h2 : stagesList.findIdx? (fun x => x == "C5") = some 11 := by decide
    simp only [stage_to_D, if_neg (by decide : ¬("C5" : String) = "C6"), h2]
    norm_num [D_to_stage, findStage, BeleA]
  · simp only [stage_to_D, if_pos rfl]
    norm_num [D_to_stage]

/-! ## C4 — spawning-date margin -/

/-- C4 counterexample: with forcing from day 0 to day 730 and
`dt_spawn = 10`, the spawning date 370 is produced although it exceeds
forcing end − 365 = 365, so the claimed one-year margin fails. -/
theorem c4_counterexample :
    (370 : ℚ) ∈ spawn_dates 0 730 10 ∧ ¬((370 : ℚ) ≤ 730 - 365) := by
  constructor
  · have hceil : (⌈(3751 / 100 : ℚ)⌉) = 38 := by
      rw [Int.ceil_eq_iff]
      constructor <;> norm_num
    norm_num [spawn_dates, npArange, hceil, List.mem_map, List.mem_range]
    exact ⟨37, by norm_num, by norm_num⟩
  · norm_num

/-- C4 (amended): every spawning date is of the form
`tstart + k * dt_spawn` and is strictly below
`tend - 365 + 0.1 + dt_spawn` (so it may exceed `tend - 365` by up to one
spawn step), and the sequence starts at the forcing start. -/
theorem c4_amended (tstart tend dtspawn : ℚ) (h : 0 < dtspawn) :
    (∀ x ∈ spawn_dates tstart tend dtspawn,
        (∃ k : ℕ, x = tstart + k * dtspawn) ∧
          x < tend - 365 + 1/10 + dtspawn) ∧
    (tstart < tend - 365 + 1/10 + dtspawn →
        (spawn_dates tstart tend dtspawn).head? = some tstart) := by
  have key : ∀ k : ℕ,
      k < (⌈((tend - 365 + 1/10 + dtspawn) - tstart) / dtspawn⌉).toNat →
      tstart + (k : ℚ) * dtspawn < tend - 365 + 1/10 + dtspawn := by
    intro k hk
    have hkZ : (k : ℤ) < ⌈((tend - 365 + 1/10 + dtspawn) - tstart) / dtspawn⌉ :=
      Int.lt_toNat.mp hk
    have h1 : (k : ℚ) + 1 ≤
        ((⌈((tend - 365 + 1/10 + dtspawn) - tstart) / dtspawn⌉ : ℤ) : ℚ) := by
      exact_mod_cast Int.add_one_le_iff.mpr hkZ
    have h2 : ((⌈((tend - 365 + 1/10 + dtspawn) - tstart) / dtspawn⌉ : ℤ) : ℚ) <
        ((tend - 365 + 1/10 + dtspawn) - tstart) / dtspawn + 1 :=
      Int.ceil_lt_add_one _
    have h3 : (k : ℚ) < ((tend - 365 + 1/10 + dtspawn) - tstart) / dtspawn := by
      linarith
    have h4 : (k : ℚ) * dtspawn <
        ((tend - 365 + 1/10 + dtspawn) - tstart) / dtspawn * dtspawn :=
      (mul_lt_mul_right h).mpr h3
    rw [div_mul_cancel₀ _ (ne_of_gt h)] at h4
    linarith
  constructor
  · intro x hx
    simp only [spawn_dates, npArange, if_pos h] at hx
    rw [List.mem_map] at hx
    obtain ⟨k, hkmem, hkx⟩ := hx
    rw [List.mem_range] at hkmem
    exact ⟨⟨k, hkx.symm⟩, hkx ▸ key k hkmem⟩
  · intro hlt
    have hpos : 0 < (⌈((tend - 365 + 1/10 + dtspawn) - tstart) / dtspawn⌉).toNat :=
      Int.lt_toNat.mpr (Int.ceil_pos.mpr (div_pos (by linarith) h))
    obtain ⟨j, hj⟩ := Nat.exists_eq_succ_of_ne_zero (Nat.pos_iff_ne_zero.mp hpos)
    simp only [spawn_dates, npArange, if_pos h, hj, List.range_succ_eq_map,
      List.map_cons, List.head?_cons]
    norm_num

/-- C4 witness: instantiating the amended statement on the
counterexample's forcing window. -/
theorem c4_amended_witness :
    ((∀ x ∈ spawn_dates 0 730 10,
        (∃ k : ℕ, x = 0 + k * 10) ∧ x < 730 - 365 + 1/10 + 10) ∧
      ((0 : ℚ) < 730 - 365 + 1/10 + 10 →
        (spawn_dates 0 730 10).head? = some 0)) :=
  c4_amended 0 730 10 (by norm_num)

/-! ## C8 — strategy grid and projector round trip -/

theorem length_innerTriples (x : ℚ) (B C : List ℚ) :
    (B.flatMap (fun y => C.map (fun z => (x, y, z)))).length =
      B.length * C.length := by
  induction B with
  | nil => simp
  | cons b bs ih =>
      simp only [List.flatMap_cons, List.length_append, List.length_map, ih,
        List.length_cons]
      ring

theorem length_cartesianTriples (A B C : List ℚ) :
    (cartesianTriples A B C).length = A.length * B.length * C.length := by
  induction A with
  | nil => simp [cartesianTriples]
  | cons x xs ih =>
      have hsplit : cartesianTriples (x :: xs) B C =
          (B.flatMap (fun y => C.map (fun z => (x, y, z)))) ++
            cartesianTriples xs B C := by
        simp [cartesianTriples]
      rw [hsplit, List.length_append, length_innerTriples, ih,
        List.length_cons]
      ring

theorem meshFlatExit_eq (A B C : List ℚ) :
    meshFlatExit A B C = (cartesianTriples A B C).map (fun v => v.1) := by
  simp [meshFlatExit, cartesianTriples, List.map_flatMap, List.map_map,
    Function.comp_def]

theorem meshFlatEnter_eq (A B C : List ℚ) :
    meshFlatEnter A B C = (cartesianTriples A B C).map (fun v => v.2.1) := by
  simp [meshFlatEnter, cartesianTriples, List.map_flatMap, List.map_map,
    Function.comp_def]

theorem meshFlatDtegg_eq (A B C : List ℚ) :
    meshFlatDtegg A B C = (cartesianTriples A B C).map (fun v => v.2.2) := by
  simp [meshFlatDtegg, cartesianTriples, List.map_flatMap, List.map_map,
    Function.comp_def]

/-- C8: the strategy grid has exactly `|exit| × |entry| × |dtegg|`
flattened entries, and the projector at flattened index `i` reproduces
exactly the `i`-th triple of the cartesian expansion in flattening order,
leaving all other parameters unchanged. -/
theorem c8_grid_projector_roundtrip (p : ParamsStrat) (A B C : List ℚ)
    (i : ℕ) (hi : i < A.length * B.length * C.length) :
    (cartesianTriples A B C).length = A.length * B.length * C.length ∧
    ((add_strategy_to_params p A B C i).tdia_exit,
      (add_strategy_to_params p A B C i).tdia_enter,
      (add_strategy_to_params p A B C i).dtegg) =
        (cartesianTriples A B C).getD i (0, 0, 0) ∧
    (add_strategy_to_params p A B C i).rest = p.rest := by
  have hlen := length_cartesianTriples A B C
  have hi' : i < (cartesianTriples A B C).length := by omega
  refine ⟨hlen, ?_, rfl⟩
  have hexit : (meshFlatExit A B C).getD i 0 =
      ((cartesianTriples A B C).getD i (0, 0, 0)).1 := by
    rw [meshFlatExit_eq,
      List.getD_eq_getElem _ _ (by simpa using hi'),
      List.getD_eq_getElem _ _ hi', List.getElem_map]
  have henter : (meshFlatEnter A B C).getD i 0 =
      ((cartesianTriples A B C).getD i (0, 0, 0)).2.1 := by
    rw [meshFlatEnter_eq,
      List.getD_eq_getElem _ _ (by simpa using hi'),
      List.getD_eq_getElem _ _ hi', List.getElem_map]
  have hdtegg : (meshFlatDtegg A B C).getD i 0 =
      ((cartesianTriples A B C).getD i (0, 0, 0)).2.2 := by
    rw [meshFlatDtegg_eq,
      List.getD_eq_getElem _ _ (by simpa using hi'),
      List.getD_eq_getElem _ _ hi', List.getElem_map]
  show ((meshFlatExit A B C).getD i 0, (meshFlatEnter A B C).getD i 0,
      (meshFlatDtegg A B C).getD i 0) =
    (cartesianTriples A B C).getD i (0, 0, 0)
  rw [hexit, henter, hdtegg]

/-- C8 witness: the round trip at the concrete grid
`A = [1, 2]`, `B = [3]`, `C = [4, 5]` and flattened index 3. -/
theorem c8_witness :
    (cartesianTriples [1, 2] [3] [4, 5]).length =
        ([1, 2] : List ℚ).length * ([3] : List ℚ).length *
          ([4, 5] : List ℚ).length ∧
    ((add_strategy_to_params ⟨0, 0, 0, fun _ => 0⟩ [1, 2] [3] [4, 5] 3).tdia_exit,
      (add_strategy_to_params ⟨0, 0, 0, fun _ => 0⟩ [1, 2] [3] [4, 5] 3).tdia_enter,
      (add_strategy_to_params ⟨0, 0, 0, fun _ => 0⟩ [1, 2] [3] [4, 5] 3).dtegg) =
        (cartesianTriples [1, 2] [3] [4, 5]).getD 3 (0, 0, 0) ∧
    (add_strategy_to_params ⟨0, 0, 0, fun _ => 0⟩ [1, 2] [3] [4, 5] 3).rest =
      (⟨0, 0, 0, fun _ => 0⟩ : ParamsStrat).rest :=
  c8_grid_projector_roundtrip ⟨0, 0, 0, fun _ => 0⟩ [1, 2] [3] [4, 5] 3
    (by norm_num)

/-! ## C6 / C7 — the empty-success short circuit -/

/-- C6: if no strategy produced any cohort with `level > 0`, the driver
takes the early return with all-zero `F1` and `F2` [NC × NS] arrays (the
check and return are total — nothing is raised). -/
theorem c6_empty_success (NC NS : ℕ) (level : ℕ → ℕ → ℚ)
    (h : ∀ s, s < NS → ∀ c, c < NC → ¬ 0 < level c s) :
    population_success_check NC NS level =
      some (fun _ _ => 0, fun _ _ => 0) := by
  have hempty : successList NC NS level = [] := by
    rw [successList, List.filter_eq_nil_iff]
    intro s hs
    rw [List.mem_range] at hs
    simp only [List.any_eq_true, List.mem_range, decide_eq_true_eq,
      not_exists, not_and]
    intro c hc
    exact h s hs c hc
  rw [population_success_check, hempty]
  simp

/-- C6 witness: one strategy, one cohort, `level` identically 0. -/
theorem c6_witness :
    population_success_check 1 1 (fun _ _ => 0) =
      some (fun _ _ => 0, fun _ _ => 0) :=
  c6_empty_success 1 1 (fun _ _ => 0)
    (by intro s _ c _; norm_num)

/-- C7: when the set of successful strategies is exactly the singleton
{flattened index 0}, `np.any(np.where(...))` is false, so the driver still
takes the empty-success early return with `F1 = F2 = 0` even though a
strategy succeeded. -/
theorem c7_index_zero_misfire (NC NS : ℕ) (level : ℕ → ℕ → ℚ)
    (hNS : 0 < NS)
    (h0 : ∃ c, c < NC ∧ 0 < level c 0)
    (hrest : ∀ s, 0 < s → s < NS → ∀ c, c < NC → ¬ 0 < level c s) :
    successList NC NS level = [0] ∧
    population_success_check NC NS level =
      some (fun _ _ => 0, fun _ _ => 0) := by
  have hsl : successList NC NS level = [0] := by
    obtain ⟨mm, hm⟩ := Nat.exists_eq_succ_of_ne_zero (Nat.pos_iff_ne_zero.mp hNS)
    rw [successList, hm, List.range_succ_eq_map, List.filter_cons]
    have hc0 : ((List.range NC).any (fun c => decide (0 < level c 0))) = true := by
      rw [List.any_eq_true]
      obtain ⟨c, hc, hcl⟩ := h0
      exact ⟨c, List.mem_range.mpr hc, decide_eq_true hcl⟩
    rw [hc0]
    have hrest0 : ((List.range mm).map Nat.succ).filter
        (fun s => (List.range NC).any fun c => decide (0 < level c s)) = [] := by
      rw [List.filter_map, List.map_eq_nil_iff]
      rw [List.filter_eq_nil_iff]
      intro k hk
      rw [List.mem_range] at hk
      simp only [Function.comp, List.any_eq_true, List.mem_range,
        decide_eq_true_eq, not_exists, not_and]
      intro c hc
      exact hrest (Nat.succ k) (Nat.succ_pos k) (by omega) c hc
    rw [hrest0]
    simp
  refine ⟨hsl, ?_⟩
  rw [population_success_check, hsl]
  simp

/-- C7 witness: two strategies, one cohort, success only at strategy 0 —
the zero return is still taken. -/
theorem c7_witness :
    successList 1 2 (fun _ s => if s = 0 then 2 else 0) = [0] ∧
    population_success_check 1 2 (fun _ s => if s = 0 then 2 else 0) =
      some (fun _ _ => 0, fun _ _ => 0) :=
  c7_index_zero_misfire 1 2 (fun _ s => if s = 0 then 2 else 0)
    (by norm_num) ⟨0, by norm_num, by norm_num⟩
    (by
      intro s hs1 hs2 c _
      have : s = 1 := by omega
      subst this
      norm_num)

/-! ## C2 — two-generation fitness and `np.interp` clamping -/

theorem head_fst_le_getLast_fst (l : List (ℚ × ℚ)) (h1 : ℚ × ℚ)
    (hch : List.Chain' (fun pr q : ℚ × ℚ => pr.1 < q.1) (h1 :: l)) :
    h1.1 ≤ ((h1 :: l).getLast (by simp)).1 := by
  induction l generalizing h1 with
  | nil => simp
  | cons h2 t ih =>
      have h12 : h1.1 < h2.1 := (List.chain'_cons.mp hch).1
      have htail := ih h2 (List.chain'_cons.mp hch).2
      rw [List.getLast_cons (by simp)]
      exact le_trans (le_of_lt h12) htail

theorem npInterp_le_head (x a fa : ℚ) (rest : List (ℚ × ℚ))
    (hch : List.Chain' (fun pr q : ℚ × ℚ => pr.1 ≤ q.1) ((a, fa) :: rest))
    (hx : x ≤ a) : npInterp x ((a, fa) :: rest) = fa := by
  cases rest with
  | nil => rfl
  | cons pr2 rest2 =>
      have hab : a ≤ pr2.1 := (List.chain'_cons.mp hch).1
      simp only [npInterp]
      rcases lt_or_eq_of_le hx with hlt | heq
      · rw [if_pos hlt]
      · rw [if_neg (by rw [heq]; exact lt_irrefl a),
          if_pos (by rw [heq]; exact hab)]
        rw [heq]
        simp

theorem npInterp_ge_last (x : ℚ) :
    ∀ (l : List (ℚ × ℚ)) (hne : l ≠ [])
      (hch : List.Chain' (fun pr q : ℚ × ℚ => pr.1 < q.1) l),
      (l.getLast hne).1 ≤ x → npInterp x l = (l.getLast hne).2 := by
  intro l
  induction l with
  | nil => intro hne; exact absurd rfl hne
  | cons p1 tail ih =>
      intro hne hch hx
      cases tail with
      | nil => simp [npInterp]
      | cons p2 tail2 =>
          have h12 : p1.1 < p2.1 := (List.chain'_cons.mp hch).1
          have hch2 : List.Chain' (fun pr q : ℚ × ℚ => pr.1 < q.1)
              (p2 :: tail2) := (List.chain'_cons.mp hch).2
          rw [List.getLast_cons (by simp)] at hx ⊢
          have hp2x : p2.1 ≤ x :=
            le_trans (head_fst_le_getLast_fst tail2 p2 hch2) hx
          have hnot1 : ¬ x < p1.1 := not_lt.mpr (le_trans (le_of_lt h12) hp2x)
          cases tail2 with
          | nil =>
              simp only [npInterp]
              rw [if_neg hnot1]
              simp only [List.getLast_singleton] at hx ⊢
              by_cases hxb : x ≤ p2.1
              · have hxe : x = p2.1 := le_antisymm hxb hx
                rw [if_pos hxb, hxe]
                have hden : p2.1 - p1.1 ≠ 0 := sub_ne_zero.mpr (ne_of_gt h12)
                field_simp
              · rw [if_neg hxb]
          | cons p3 t3 =>
              have h23 : p2.1 < p3.1 := (List.chain'_cons.mp hch2).1
              have hch3 := (List.chain'_cons.mp hch2).2
              rw [List.getLast_cons (by simp)] at hx
              have hp3x : p3.1 ≤ x :=
                le_trans (head_fst_le_getLast_fst t3 p3 hch3) hx
              have hgt2 : p2.1 < x := lt_of_lt_of_le h23 hp3x
              simp only [npInterp]
              rw [if_neg hnot1, if_neg (not_le.mpr hgt2)]
              have := ih (by simp) hch2
              rw [List.getLast_cons (by simp)] at this
              exact this hx

theorem pairsFrom_succ (P : PopInputs) (i mm : ℕ) :
    pairsFrom P i (mm + 1) =
      (P.t0 i, F1expected P i) :: pairsFrom P (i + 1) mm := rfl

theorem pairsFrom_getLast (P : PopInputs) :
    ∀ (mm i : ℕ), (pairsFrom P i (mm + 1)).getLast? =
      some (P.t0 (i + mm), F1expected P (i + mm)) := by
  intro mm
  induction mm with
  | zero => intro i; simp [pairsFrom]
  | succ k ih =>
      intro i
      rw [pairsFrom_succ, pairsFrom_succ, List.getLast?_cons_cons,
        ← pairsFrom_succ, ih (i + 1)]
      have he : i + 1 + k = i + (k + 1) := by omega
      rw [he]

theorem pairsFrom_chain (P : PopInputs)
    (hmono : ∀ j, P.t0 j < P.t0 (j + 1)) :
    ∀ (mm i : ℕ),
      List.Chain' (fun pr q : ℚ × ℚ => pr.1 < q.1) (pairsFrom P i mm) := by
  intro mm
  induction mm with
  | zero => intro i; simp [pairsFrom]
  | succ k ih =>
      intro i
      rw [pairsFrom_succ, List.chain'_cons']
      refine ⟨?_, ih (i + 1)⟩
      intro y hy
      cases k with
      | zero => simp [pairsFrom] at hy
      | succ k2 =>
          rw [pairsFrom_succ] at hy
          simp only [List.head?_cons, Option.mem_some_iff] at hy
          rw [← hy]
          exact hmono i

/-- C2 counterexample: on `exPop` the code's `F2` is 5, while the claim's
out-of-range-to-zero formula gives 0 — `np.interp` clamps to the endpoint
value at times past the last spawn date instead of zeroing. -/
theorem c2_counterexample : F2 exPop 0 0 = 5 ∧ F2specZero exPop 0 0 = 0 := by
  constructor
  · norm_num [F2, dF2, F1ex, interpPts, pairsFrom, F1expected, npNanmax,
      npInterp, Finset.sum_range_succ, exPop, List.range_succ]
  · norm_num [F2specZero, interpPts, pairsFrom, F1expected, npNanmax,
      npInterp, Finset.sum_range_succ, exPop, List.range_succ]

/-- C2 (amended): for every cohort and strategy, `F2` equals the sum over
time of `dF1` multiplied by the expected-next-generation fitness curve
interpolated at that time; NaN interpolation results are treated as zero
(vacuously — all inputs are finite), and at times outside the spawn-date
range the interpolated value is the curve's nearest endpoint value
(`np.interp` clamping), not zero. -/
theorem c2_amended (P : PopInputs) (hNC : 0 < P.NC)
    (hmono : ∀ j, P.t0 j < P.t0 (j + 1)) :
    (∀ c s, F2 P c s =
        ∑ n in Finset.range P.NT,
          P.dF1 n c s * npInterp (P.t n) (interpPts P)) ∧
    (∀ n c, P.t n ≤ P.t0 0 → F1ex P n c = F1expected P 0) ∧
    (∀ n c, P.t0 (P.NC - 1) ≤ P.t n →
        F1ex P n c = F1expected P (P.NC - 1)) := by
  obtain ⟨mm, hm⟩ := Nat.exists_eq_succ_of_ne_zero (Nat.pos_iff_ne_zero.mp hNC)
  refine ⟨fun c s => rfl, ?_, ?_⟩
  · intro n c hle
    have hchainLe : List.Chain' (fun pr q : ℚ × ℚ => pr.1 ≤ q.1)
        (pairsFrom P 0 (mm + 1)) :=
      (pairsFrom_chain P hmono (mm + 1) 0).imp (fun pr q hpq => le_of_lt hpq)
    rw [pairsFrom_succ] at hchainLe
    rw [F1ex, interpPts, hm, pairsFrom_succ]
    exact npInterp_le_head _ _ _ _ hchainLe hle
  · intro n c hge
    have hchain := pairsFrom_chain P hmono (mm + 1) 0
    have hne : pairsFrom P 0 (mm + 1) ≠ [] := by rw [pairsFrom_succ]; simp
    have hlast : (pairsFrom P 0 (mm + 1)).getLast hne =
        (P.t0 (0 + mm), F1expected P (0 + mm)) := by
      have hq := List.getLast?_eq_getLast (pairsFrom P 0 (mm + 1)) hne
      rw [pairsFrom_getLast P mm 0] at hq
      exact (Option.some.inj hq).symm
    have hmm : P.NC - 1 = mm := by omega
    have hx : ((pairsFrom P 0 (mm + 1)).getLast hne).1 ≤ P.t n := by
      rw [hlast]
      simpa [hmm] using hge
    rw [F1ex, interpPts, hm, npInterp_ge_last (P.t n) _ hne hchain hx, hlast]
    simp [hmm]

/-- C2 witness: the amended statement instantiated on `exPop`. -/
theorem c2_amended_witness :
    (∀ c s, F2 exPop c s =
        ∑ n in Finset.range exPop.NT,
          exPop.dF1 n c s * npInterp (exPop.t n) (interpPts exPop)) ∧
    (∀ n c, exPop.t n ≤ exPop.t0 0 → F1ex exPop n c = F1expected exPop 0) ∧
    (∀ n c, exPop.t0 (exPop.NC - 1) ≤ exPop.t n →
        F1ex exPop n c = F1expected exPop (exPop.NC - 1)) :=
  c2_amended exPop (by norm_num [exPop])
    (by
      intro j
      simp only [exPop]
      push_cast
      linarith)

/-! ## C10 — ice-algae-aware prey saturation variants -/

/-- C10: on a forcing that already contains `Ptot`, the `biomas_dia19` and
`biomas_dia19a` variants return no `sat` at all (their whole computation
is indented under `if 'Ptot' not in v`), while `biomas_dia21` on the very
same forcing does return `sat` as the pointwise max of the water-column
and ice-algae saturation terms. -/
theorem c10_dia19_missing_sat :
    (prey_saturation "biomas_dia19" exPrey exPreyParams).sat = none ∧
    (prey_saturation "biomas_dia19a" exPrey exPreyParams).sat = none ∧
    ((prey_saturation "biomas_dia21" exPrey exPreyParams).sat =
      some (fun n =>
        max (((prey_saturation "biomas_dia21" exPrey exPreyParams).satWC).getD
              (fun _ => 0) n)
            (((prey_saturation "biomas_dia21" exPrey exPreyParams).satIA).getD
              (fun _ => 0) n))) :=
  ⟨rfl, rfl, rfl⟩

/-! ## Evaluation helpers for the integrator runs -/

theorem qmod365_nonneg (x : ℚ) : 0 ≤ qmod365 x := by
  rw [qmod365]
  have h := Int.floor_le (x / 365)
  have h1 : (365 : ℚ) * (⌊x / 365⌋ : ℚ) ≤ 365 * (x / 365) :=
    mul_le_mul_of_nonneg_left h (by norm_num)
  have h2 : (365 : ℚ) * (x / 365) = x := by field_simp
  linarith

theorem qmod365_lt (x : ℚ) : qmod365 x < 365 := by
  rw [qmod365]
  have h := Int.lt_floor_add_one (x / 365)
  have h1 : (365 : ℚ) * (x / 365) < 365 * ((⌊x / 365⌋ : ℚ) + 1) :=
    mul_lt_mul_of_pos_left h (by norm_num)
  have h2 : (365 : ℚ) * (x / 365) = x := by field_simp
  have h3 : (365 : ℚ) * ((⌊x / 365⌋ : ℚ) + 1) =
      365 * (⌊x / 365⌋ : ℚ) + 365 := by ring
  linarith

theorem qmod365_small (x : ℚ) (h0 : 0 ≤ x) (h1 : x < 365) :
    qmod365 x = x := by
  rw [qmod365]
  have hfl : ⌊x / 365⌋ = 0 := by
    rw [Int.floor_eq_zero_iff]
    refine ⟨div_nonneg h0 (by norm_num), ?_⟩
    rw [div_lt_one (by norm_num)]
    exact h1
  rw [hfl]
  push_cast
  ring

theorem cumsum_const_upto (f : ℕ → ℚ) (cq : ℚ) :
    ∀ n, (∀ k ≤ n, f k = cq) → cumsum f n = ((n : ℚ) + 1) * cq := by
  intro n
  induction n with
  | zero =>
      intro h
      rw [cumsum, h 0 (le_refl 0)]
      push_cast
      ring
  | succ k ih =>
      intro h
      rw [cumsum, ih (fun j hj => h j (le_trans hj (Nat.le_succ k))),
        h (k + 1) (le_refl _)]
      push_cast
      ring

theorem countTrue_eq_zero_of (b : ℕ → Bool) (n : ℕ)
    (h : ∀ k ≤ n, b k = false) : countTrue b n = 0 := by
  induction n with
  | zero => simp [countTrue, h 0 (le_refl 0)]
  | succ k ih =>
      rw [countTrue, ih (fun j hj => h j (le_trans hj (Nat.le_succ k))),
        h (k + 1) (le_refl _)]
      simp

theorem yday_exF (r : Run) (hF : r.F = exF) (n : ℕ) (h : n < 365) :
    yday r n = (n : ℚ) + 1 := by
  rw [yday, hF]
  show yearday ((n : ℚ)) = _
  rw [yearday, qmod365_small _ (Nat.cast_nonneg n) (by exact_mod_cast h)]

theorem dt_exF (r : Run) (hF : r.F = exF) : dt r = 1 := by
  rw [dt, hF]
  show ((2 : ℕ) : ℚ) - ((1 : ℕ) : ℚ) = 1
  norm_num

theorem isalive1_exF (r : Run) (hF : r.F = exF) (ht0 : r.t0 = 0)
    (hreq : r.p.requireActiveSpawning = false) (n : ℕ) :
    isalive1 r n = true := by
  rw [isalive1, spawnOK, hreq, ht0, hF]
  simp [exF, Nat.cast_nonneg]

/-! evaluation of the `exRunC3` column -/

theorem exRunC3_aB (n : ℕ) : aB exRunC3 n = true := by
  rw [aB, inDiaWindow]
  have hlt := qmod365_lt (exRunC3.F.t n)
  have hge := qmod365_nonneg (exRunC3.F.t n)
  have h1 : ¬ (exRunC3.p.tdia_enter ≤ yday exRunC3 n) := by
    rw [show exRunC3.p.tdia_enter = 400 from rfl, yday, yearday]
    linarith
  have h2 : ¬ (yday exRunC3 n ≤ exRunC3.p.tdia_exit) := by
    rw [show exRunC3.p.tdia_exit = (-1 : ℚ) from rfl, yday, yearday]
    linarith
  simp [h1, h2]

theorem exRunC3_a (n : ℕ) : a exRunC3 n = 1 := by
  rw [a, exRunC3_aB n]
  simp

theorem exRunC3_isalive1 (n : ℕ) : isalive1 exRunC3 n = true :=
  isalive1_exF exRunC3 rfl rfl rfl n

theorem exRunC3_qd (n : ℕ) : qd exRunC3 n = 1 := by
  rw [qd, exRunC3_isalive1 n]
  simp
  rfl

theorem exRunC3_dDdt_nf (n : ℕ) : dDdt_nf exRunC3 n = 1/10 := by
  rw [dDdt_nf, alive01, exRunC3_isalive1 n, exRunC3_qd n]
  show (1 : ℚ) * exRunC3.p.u0 * 1 = 1/10
  rw [show exRunC3.p.u0 = 1/10 from rfl]
  ring

theorem exRunC3_dDdt (n : ℕ) : dDdt exRunC3 n = 1/10 := by
  rw [dDdt]
  by_cases hf : isfeeding0 exRunC3 n = true
  · rw [if_pos hf, alive01, exRunC3_isalive1 n, exRunC3_qd n, exRunC3_a n]
    show (1 : ℚ) * exRunC3.p.u0 * 1 * 1 * 1 = 1/10
    rw [show exRunC3.p.u0 = 1/10 from rfl]
    ring
  · rw [if_neg hf]
    exact exRunC3_dDdt_nf n

theorem exRunC3_D0 (n : ℕ) (h : n ≤ 8) : D0 exRunC3 n = ((n : ℚ) + 1)/10 := by
  rw [D0, cumsum_const_upto _ (1/10) n (fun k _ => exRunC3_dDdt k),
    dt_exF exRunC3 rfl]
  have hn : (n : ℚ) ≤ 8 := by exact_mod_cast h
  rw [min_eq_right (by linarith)]
  ring

theorem exRunC3_toolate : toolate exRunC3 = true := by
  rw [toolate]
  refine (anyUpTo_eq_true_iff _ _).mpr ⟨1, by norm_num [exRunC3, exF], ?_⟩
  rw [exRunC3_D0 1 (by norm_num), isineggprod1]
  have h1 : exRunC3.t0 + exRunC3.p.dtegg ≤ exRunC3.F.t 1 := by
    show (0 : ℚ) + 1 ≤ ((1 : ℕ) : ℚ)
    norm_num
  simp [h1]
  norm_num

theorem exRunC3_D2 (n : ℕ) : D2 exRunC3 n = none := by
  have hD1 : D1 exRunC3 n = none := by
    rw [D1, exRunC3_toolate]
    simp
  rw [D2, hD1]
  simp

theorem exRunC3_isalive3 (n : ℕ) : isalive3 exRunC3 n = false := by
  rw [isalive3, isalive2, exRunC3_D2 n]
  simp

theorem exRunC3_level : level exRunC3 = 1 := by
  have h1 : anyUpTo (fun n => decide (D2 exRunC3 n = some 1))
      (exRunC3.F.NT - 1) = false := by
    rw [anyUpTo_eq_false_iff]
    intro k _
    rw [exRunC3_D2 k]
    simp
  have hfail : ∀ j, isfailingtodiapause exRunC3 j = false := by
    intro j
    have ha : decide (a exRunC3 j = 0) = false := by
      rw [exRunC3_a j]
      norm_num
    rw [isfailingtodiapause]
    simp [ha]
  have h2 : anyUpTo (hasfailedtodiapause exRunC3)
      (exRunC3.F.NT - 1) = false := by
    rw [anyUpTo_eq_false_iff]
    intro k _
    rw [hasfailedtodiapause,
      countTrue_eq_zero_of _ k (fun j _ => hfail j)]
    norm_num
  rw [level, levelDia, h1, h2]
  simp

/-- C3 (code bug): on `exRunC3` the cohort is in egg-production phase
while `D < 1`, its whole D column is invalidated to NaN both internally
and in the returned tensor — but the returned `level` is 1, not the 0 the
spec (and the code's own level legend, lines 72–75) prescribe: with D all
NaN the diapause-failure check cannot fire, and the unconditional level-1
assignment of line 156 includes the invalidated cohort. -/
theorem c3_toolate_level :
    toolate exRunC3 = true ∧ (∀ n, D2 exRunC3 n = none) ∧
    (∀ n, D_out exRunC3 n = Flt.nan) ∧ level exRunC3 = 1 := by
  refine ⟨exRunC3_toolate, exRunC3_D2, ?_, exRunC3_level⟩
  intro n
  rw [D_out, exRunC3_isalive3 n]
  simp

/-! ## C1 — monotone death and the dead-cell encoding -/

theorem D2_isSome_iff (r : Run) (n : ℕ) :
    (D2 r n).isSome = true ↔
      (hasfailedtodiapause r n = false ∧ toolate r = false) := by
  rw [D2, D1]
  cases h1 : hasfailedtodiapause r n <;> cases h2 : toolate r <;>
    simp [h1, h2]

theorem isalive3_backward (r : Run) {n1 n2 : ℕ}
    (h12 : n1 ≤ n2) (ht : r.t0 ≤ r.F.t n1)
    (h2 : isalive3 r n2 = true) : isalive3 r n1 = true := by
  rw [isalive3, Bool.and_eq_true, Bool.not_eq_true'] at h2
  obtain ⟨h2a, h2s⟩ := h2
  rw [isalive2, Bool.and_eq_true] at h2a
  obtain ⟨h2l, h2d⟩ := h2a
  rw [isalive3, Bool.and_eq_true, Bool.not_eq_true']
  refine ⟨?_, ?_⟩
  · rw [isalive2, Bool.and_eq_true]
    refine ⟨?_, ?_⟩
    · rw [isalive1, Bool.and_eq_true, decide_eq_true_eq]
      rw [isalive1, Bool.and_eq_true] at h2l
      exact ⟨ht, h2l.2⟩
    · rw [D2_isSome_iff] at h2d ⊢
      obtain ⟨hfail2, htool⟩ := h2d
      refine ⟨?_, htool⟩
      rw [hasfailedtodiapause, decide_eq_false_iff_not] at hfail2 ⊢
      intro hcon
      exact hfail2 (lt_of_lt_of_le hcon (countTrue_mono _ h12))
  · rw [anyUpTo_eq_false_iff] at h2s ⊢
    intro k hk
    exact h2s k (le_trans hk h12)

/-- C1: in one integrator run, once the alive mask is false at a timestep
at or after the cohort's spawn date, it is false at every later timestep;
and every not-alive cell of the returned tensor has activity, D, W and R
equal to NaN, log-survivorship equal to −∞ and egg production equal to 0.
(No monotonicity of the time axis is needed: all the death conditions are
cumulative.) -/
theorem c1_monotone_death (r : Run) :
    (∀ n1 n2, n1 ≤ n2 → r.t0 ≤ r.F.t n1 →
        isalive3 r n1 = false → isalive3 r n2 = false) ∧
    (∀ n, isalive3 r n = false →
        a_out r n = Flt.nan ∧ D_out r n = Flt.nan ∧ W_out r n = Flt.nan ∧
        R_out r n = Flt.nan ∧ lnN_out r n = Flt.ninf ∧ E r n = 0) := by
  constructor
  · intro n1 n2 h12 ht h1
    cases h2 : isalive3 r n2 with
    | false => rfl
    | true =>
        exact absurd (isalive3_backward r h12 ht h2) (by rw [h1]; simp)
  · intro n h
    refine ⟨?_, ?_, ?_, ?_, ?_, ?_⟩ <;>
      simp [a_out, D_out, W_out, R_out, lnN_out, E, h]

/-- C1 witness: on `exRunC3` the cohort dies at its spawn step (day 0 ≥
t0); the theorem propagates death to day 2 and gives the NaN/−∞/0
encoding there. -/
theorem c1_witness :
    isalive3 exRunC3 0 = false ∧ isalive3 exRunC3 2 = false ∧
    D_out exRunC3 2 = Flt.nan ∧ lnN_out exRunC3 2 = Flt.ninf ∧
    E exRunC3 2 = 0 := by
  have h0 : isalive3 exRunC3 0 = false := exRunC3_isalive3 0
  have hc := c1_monotone_death exRunC3
  have h2 : isalive3 exRunC3 2 = false :=
    hc.1 0 2 (by norm_num) (by show (0 : ℚ) ≤ ((0 : ℕ) : ℚ); norm_num) h0
  obtain ⟨-, hD, -, -, hln, hE⟩ := hc.2 2 h2
  exact ⟨h0, h2, hD, hln, hE⟩

/-! ## C5 — diapause failure and level 1: evaluation of `exRunC5` -/

theorem exRunC5_isalive1 (n : ℕ) : isalive1 exRunC5 n = true :=
  isalive1_exF exRunC5 rfl rfl rfl n

theorem exRunC5_yday (n : ℕ) (h : n < 365) : yday exRunC5 n = (n : ℚ) + 1 :=
  yday_exF exRunC5 rfl n h

theorem exRunC5_aB0 : aB exRunC5 0 = true := by
  rw [aB, inDiaWindow, exRunC5_yday 0 (by norm_num),
    show exRunC5.p.tdia_enter = (3 : ℚ) from rfl,
    show exRunC5.p.tdia_exit = (-1 : ℚ) from rfl]
  norm_num

theorem exRunC5_aB1 : aB exRunC5 1 = true := by
  rw [aB, inDiaWindow, exRunC5_yday 1 (by norm_num),
    show exRunC5.p.tdia_enter = (3 : ℚ) from rfl,
    show exRunC5.p.tdia_exit = (-1 : ℚ) from rfl]
  norm_num

theorem exRunC5_aB2 : aB exRunC5 2 = false := by
  rw [aB, inDiaWindow, exRunC5_yday 2 (by norm_num),
    show exRunC5.p.tdia_enter = (3 : ℚ) from rfl,
    show exRunC5.p.tdia_exit = (-1 : ℚ) from rfl]
  norm_num

theorem exRunC5_a0 : a exRunC5 0 = 1 := by rw [a, exRunC5_aB0]; simp

theorem exRunC5_a1 : a exRunC5 1 = 1 := by rw [a, exRunC5_aB1]; simp

theorem exRunC5_a2 : a exRunC5 2 = 0 := by rw [a, exRunC5_aB2]; simp

theorem exRunC5_qd (n : ℕ) : qd exRunC5 n = 1 := by
  rw [qd, exRunC5_isalive1 n]
  simp
  rfl

theorem exRunC5_dDdt_nf (n : ℕ) : dDdt_nf exRunC5 n = 1/100 := by
  rw [dDdt_nf, alive01, exRunC5_isalive1 n, exRunC5_qd n]
  show (1 : ℚ) * exRunC5.p.u0 * 1 = 1/100
  rw [show exRunC5.p.u0 = (1 : ℚ)/100 from rfl]
  ring

theorem exRunC5_Dprov (n : ℕ) : Dprov exRunC5 n = ((n : ℚ) + 1)/100 := by
  rw [Dprov, cumsum_const_upto _ (1/100) n (fun k _ => exRunC5_dDdt_nf k),
    dt_exF exRunC5 rfl]
  ring

theorem exRunC5_isfeeding0 (n : ℕ) (h : n ≤ 100) :
    isfeeding0 exRunC5 n = false := by
  rw [isfeeding0, exRunC5_Dprov n, show exRunC5.p.Df = (2 : ℚ) from rfl,
    decide_eq_false_iff_not]
  intro hcon
  have hn : (n : ℚ) ≤ 100 := by exact_mod_cast h
  rw [le_div_iff₀ (by norm_num : (0 : ℚ) < 100)] at hcon
  linarith

theorem exRunC5_dDdt (k : ℕ) (h : k ≤ 100) : dDdt exRunC5 k = 1/100 := by
  rw [dDdt, exRunC5_isfeeding0 k h]
  simp only [Bool.false_eq_true, if_false]
  exact exRunC5_dDdt_nf k

theorem exRunC5_D0 (n : ℕ) (h : n ≤ 98) :
    D0 exRunC5 n = ((n : ℚ) + 1)/100 := by
  rw [D0,
    cumsum_const_upto _ (1/100) n
      (fun k hk => exRunC5_dDdt k (le_trans hk (by omega))),
    dt_exF exRunC5 rfl]
  have hn : (n : ℚ) ≤ 98 := by exact_mod_cast h
  rw [min_eq_right (by linarith)]
  ring

theorem exRunC5_isineggprod1 (n : ℕ) (h : n ≤ 900) :
    isineggprod1 exRunC5 n = false := by
  rw [isineggprod1, decide_eq_false_iff_not]
  show ¬ (exRunC5.t0 + exRunC5.p.dtegg ≤ exRunC5.F.t n)
  rw [show exRunC5.t0 = (0 : ℚ) from rfl,
    show exRunC5.p.dtegg = (1000 : ℚ) from rfl]
  show ¬ ((0 : ℚ) + 1000 ≤ (n : ℚ))
  have hn : (n : ℚ) ≤ 900 := by exact_mod_cast h
  intro hcon
  linarith

theorem exRunC5_toolate : toolate exRunC5 = false := by
  rw [toolate, anyUpTo_eq_false_iff]
  intro k hk
  have hk2 : k ≤ 2 := hk
  rw [exRunC5_isineggprod1 k (by omega)]
  simp

theorem exRunC5_D1 (n : ℕ) : D1 exRunC5 n = some (D0 exRunC5 n) := by
  rw [D1, exRunC5_toolate]
  simp

theorem exRunC5_isfailing0 : isfailingtodiapause exRunC5 0 = false := by
  have ha : decide (a exRunC5 0 = 0) = false := by
    rw [exRunC5_a0]
    norm_num
  rw [isfailingtodiapause]
  simp [ha]

theorem exRunC5_isfailing1 : isfailingtodiapause exRunC5 1 = false := by
  have ha : decide (a exRunC5 1 = 0) = false := by
    rw [exRunC5_a1]
    norm_num
  rw [isfailingtodiapause]
  simp [ha]

theorem exRunC5_isfailing2 : isfailingtodiapause exRunC5 2 = true := by
  have hbeen : hasbeenactive exRunC5 2 = true := by
    rw [hasbeenactive]
    refine (anyUpTo_eq_true_iff _ _).mpr ⟨0, by norm_num, ?_⟩
    have ha : decide (a exRunC5 0 = 1) = true := by
      rw [exRunC5_a0]
      norm_num
    rw [isactive, exRunC5_isalive1 0]
    simp [ha]
  have ha2 : decide (a exRunC5 2 = 0) = true := by
    rw [exRunC5_a2]
    norm_num
  have hD : D1 exRunC5 2 = some (3/100) := by
    rw [exRunC5_D1 2, exRunC5_D0 2 (by norm_num)]
    norm_num
  rw [isfailingtodiapause, exRunC5_isalive1 2, hbeen, ha2, hD]
  show (true && true && true &&
      decide ((3 : ℚ)/100 < exRunC5.p.Ddia)) = true
  rw [show exRunC5.p.Ddia = (3 : ℚ)/5 from rfl]
  norm_num

theorem exRunC5_count (n : ℕ) (h : n ≤ 2) :
    countTrue (isfailingtodiapause exRunC5) n ≤ 1 := by
  interval_cases n
  · rw [countTrue, exRunC5_isfailing0]
    simp
  · rw [countTrue, countTrue, exRunC5_isfailing0, exRunC5_isfailing1]
    simp
  · rw [countTrue, countTrue, countTrue, exRunC5_isfailing0,
      exRunC5_isfailing1, exRunC5_isfailing2]
    simp

theorem exRunC5_hasfailed (n : ℕ) (h : n ≤ 2) :
    hasfailedtodiapause exRunC5 n = false := by
  rw [hasfailedtodiapause, decide_eq_false_iff_not]
  have := exRunC5_count n h
  omega

theorem exRunC5_D2 (n : ℕ) (h : n ≤ 2) :
    D2 exRunC5 n = some (((n : ℚ) + 1)/100) := by
  rw [D2, exRunC5_hasfailed n h]
  simp [exRunC5_D1 n, exRunC5_D0 n (by omega)]

theorem exRunC5_level : level exRunC5 = 1 := by
  have h1 : anyUpTo (fun n => decide (D2 exRunC5 n = some 1))
      (exRunC5.F.NT - 1) = false := by
    rw [anyUpTo_eq_false_iff]
    intro k hk
    have hk2 : k ≤ 2 := hk
    rw [exRunC5_D2 k hk2]
    have hne : (((k : ℚ) + 1)/100) ≠ 1 := by
      have hkq : (k : ℚ) ≤ 2 := by exact_mod_cast hk2
      intro hcon
      rw [div_eq_one_iff_eq (by norm_num)] at hcon
      linarith
    simp [hne]
  have h2 : anyUpTo (hasfailedtodiapause exRunC5)
      (exRunC5.F.NT - 1) = false := by
    rw [anyUpTo_eq_false_iff]
    intro k hk
    exact exRunC5_hasfailed k hk
  rw [level, levelDia, h1, h2]
  simp

/-- C5 counterexample: on `exRunC5` the cohort fails to diapause (one
failure event, at day 2) yet its returned level is 1 — so "level 1 iff it
never fails to diapause" is false as stated: a single failure still
yields level 1 (only a cumulative count above one invalidates). -/
theorem c5_counterexample :
    isfailingtodiapause exRunC5 2 = true ∧ level exRunC5 = 1 :=
  ⟨exRunC5_isfailing2, exRunC5_level⟩

/-- C5 (amended): D is invalidated at exactly the timesteps where the
cohort is too-late or its cumulative diapause-failure count exceeds one;
and the returned level is 1 iff the count never exceeds one AND D never
reaches 1 (a single failure still yields level 1, and reaching D = 1
promotes the level to 2 instead). -/
theorem c5_amended (r : Run) (hNT : 1 ≤ r.F.NT) :
    (∀ n, (D2 r n = none ↔
        (toolate r = true ∨ 1 < countTrue (isfailingtodiapause r) n))) ∧
    (level r = 1 ↔
        ((∀ n < r.F.NT, countTrue (isfailingtodiapause r) n ≤ 1) ∧
          (∀ n < r.F.NT, D2 r n ≠ some 1))) := by
  have hconv : ∀ k : ℕ, (k ≤ r.F.NT - 1 ↔ k < r.F.NT) := by
    intro k
    omega
  constructor
  · intro n
    rw [D2, D1, hasfailedtodiapause]
    by_cases h1 : 1 < countTrue (isfailingtodiapause r) n
    · simp [h1]
    · cases h2 : toolate r <;> simp [h1, h2]
  · rw [level, levelDia]
    cases hb1 : anyUpTo (fun n => decide (D2 r n = some 1)) (r.F.NT - 1) with
    | true =>
        rw [if_pos rfl]
        have hno : ¬((∀ n < r.F.NT,
            countTrue (isfailingtodiapause r) n ≤ 1) ∧
            (∀ n < r.F.NT, D2 r n ≠ some 1)) := by
          rintro ⟨-, hc2⟩
          obtain ⟨k, hk, hkd⟩ := (anyUpTo_eq_true_iff _ _).mp hb1
          rw [decide_eq_true_eq] at hkd
          exact hc2 k ((hconv k).mp hk) hkd
        constructor
        · intro hcon
          norm_num at hcon
        · intro hR
          exact absurd hR hno
    | false =>
        rw [if_neg (by simp)]
        have hD2 : ∀ n < r.F.NT, D2 r n ≠ some 1 := by
          intro k hk
          have hkk := (anyUpTo_eq_false_iff _ _).mp hb1 k ((hconv k).mpr hk)
          rwa [decide_eq_false_iff_not] at hkk
        cases hb2 : anyUpTo (hasfailedtodiapause r) (r.F.NT - 1) with
        | true =>
            rw [if_pos rfl]
            have hno : ¬(∀ n < r.F.NT,
                countTrue (isfailingtodiapause r) n ≤ 1) := by
              intro hc1
              obtain ⟨k, hk, hkd⟩ := (anyUpTo_eq_true_iff _ _).mp hb2
              rw [hasfailedtodiapause, decide_eq_true_eq] at hkd
              exact absurd hkd (not_lt.mpr (hc1 k ((hconv k).mp hk)))
            constructor
            · intro hcon
              norm_num at hcon
            · rintro ⟨hc1, -⟩
              exact absurd hc1 hno
        | false =>
            rw [if_neg (by simp)]
            constructor
            · intro _
              refine ⟨?_, hD2⟩
              intro k hk
              have hkk := (anyUpTo_eq_false_iff _ _).mp hb2 k ((hconv k).mpr hk)
              rw [hasfailedtodiapause, decide_eq_false_iff_not] at hkk
              omega
            · intro _
              rfl

/-- C5 witness: the amended statement instantiated on `exRunC5`. -/
theorem c5_amended_witness :
    ((∀ n, (D2 exRunC5 n = none ↔
        (toolate exRunC5 = true ∨
          1 < countTrue (isfailingtodiapause exRunC5) n))) ∧
      (level exRunC5 = 1 ↔
        ((∀ n < exRunC5.F.NT,
            countTrue (isfailingtodiapause exRunC5) n ≤ 1) ∧
          (∀ n < exRunC5.F.NT, D2 exRunC5 n ≠ some 1)))) :=
  c5_amended exRunC5 (by norm_num [exRunC5, exF])

end Coltrane
